import Mathlib

/-!
Shallow embedding of the IIIF image-manipulation pipeline of cul-it/iiif:
the request-geometry resolvers and stage hooks of src/iiif/manipulator.py
and the stage hooks of src/iiif/manipulator_pil.py.

The repository is Python 2 code.  Conventions of the embedding:

* Python float arithmetic is modelled exactly over ℚ (the source only ever
  divides, multiplies and adds values small enough that the claims under
  study are about the algorithm, not about IEEE rounding).
* Python int() applied to a number truncates toward zero; the embedding is
  pyInt.
* Python 2 division of two ints floors; the embedding is Int.fdiv.
* Python 2 string comparison is lexicographic on character codes; the
  embedding is pyStrLe.
* A raise of IIIFError or IIIFZeroSizeError is an err result; a Python
  TypeError (for example a call whose argument count does not match the
  parameters of the method) is a typeErr result.
* The IIIFRequest object (request.py, outside the staged sources) appears
  only through the attributes manipulator.py reads: region_full,
  region_square, region_pct, region_xywh, size_full, size_pct, size_bang,
  size_wh and quality.  Numeric attributes are ℚ where the parser may
  produce floats (region_xywh, size_pct) and ℤ where it produces ints
  (size_wh).
-/

namespace IIIF

/-- One character-code comparison step of Python 2 string comparison. -/
def pyCharLt (a b : Char) : Bool := a.val < b.val

/-- Lexicographic order on character lists, as Python 2 compares strings. -/
def pyStrLtAux : List Char → List Char → Bool
  | [], [] => false
  | [], _ :: _ => true
  | _ :: _, [] => false
  | a :: as, b :: bs =>
    if pyCharLt a b then true else if pyCharLt b a then false else pyStrLtAux as bs

/-- Python 2 comparison a <= b on strings: not (b < a). -/
def pyStrLe (a b : String) : Bool := ! pyStrLtAux b.data a.data

/-- Python int() on an exact number: truncation toward zero
(floor for a non-negative argument, ceiling for a negative one). -/
def pyInt (q : ℚ) : ℤ := if 0 ≤ q then ⌊q⌋ else ⌈q⌉

/-- An IIIFError as raised throughout manipulator.py: the HTTP code, the
offending parameter name and the message.  zeroSize marks the
IIIFZeroSizeError subclass (error.py is outside the staged sources; the
fields are the keyword arguments every raise site passes). -/
structure IIIFErr where
  code : Nat
  parameter : String
  text : String
  zeroSize : Bool
deriving DecidableEq, Repr

/-- Outcome of a piece of Python code: a value, a raised IIIFError, or a
raised TypeError. -/
inductive PyResult (α : Type) where
  | ok : α → PyResult α
  | err : IIIFErr → PyResult α
  | typeErr : String → PyResult α
deriving DecidableEq, Repr

/-- The attributes of the parsed IIIFRequest that manipulator.py reads. -/
structure IIIFRequest where
  region_full : Bool := false
  region_square : Bool := false
  region_pct : Bool := false
  region_xywh : ℚ × ℚ × ℚ × ℚ := (0, 0, 0, 0)
  size_full : Bool := false
  size_pct : Option ℚ := none
  size_bang : Bool := false
  size_wh : Option ℤ × Option ℤ := (none, none)
  quality : Option String := none
deriving DecidableEq, Repr

/-- manipulator.py lines 204-206. -/
def regionNotImplementedErr : IIIFErr :=
  { code := 501, parameter := "region", zeroSize := false,
    text := "Region parameters require knowledge of image size which is not implemented." }

/-- manipulator.py lines 229-231. -/
def regionZeroErr : IIIFErr :=
  { code := 400, parameter := "region", zeroSize := true,
    text := "Region parameters would result in zero size result image." }

/-- manipulator.py lines 270-272, with the computed size interpolated. -/
def sizeZeroErr (w h : ℤ) : IIIFErr :=
  { code := 400, parameter := "size", zeroSize := true,
    text := s!"Size parameter would result in zero size result image ({w},{h})." }

/-- manipulator.py lines 215-222: the region box before clipping; a pct
region is converted to pixels by int(v / 100.0 * dimension + 0.5) on each
component, a pixel region is used as parsed. -/
def regionConverted (req : IIIFRequest) (width height : ℤ) : ℚ × ℚ × ℚ × ℚ :=
  if req.region_pct = true then
    ((pyInt (req.region_xywh.1 / 100 * width + 1/2) : ℚ),
     (pyInt (req.region_xywh.2.1 / 100 * height + 1/2) : ℚ),
     (pyInt (req.region_xywh.2.2.1 / 100 * width + 1/2) : ℚ),
     (pyInt (req.region_xywh.2.2.2 / 100 * height + 1/2) : ℚ))
  else req.region_xywh

/-- manipulator.py lines 223-227: truncate w to width - x when x + w
overruns the image, and h to height - y when y + h does.  x and y are not
clipped. -/
def regionClipped (req : IIIFRequest) (width height : ℤ) : ℚ × ℚ × ℚ × ℚ :=
  ((regionConverted req width height).1,
   (regionConverted req width height).2.1,
   if (regionConverted req width height).1 + (regionConverted req width height).2.2.1 > (width:ℚ)
     then (width:ℚ) - (regionConverted req width height).1
     else (regionConverted req width height).2.2.1,
   if (regionConverted req width height).2.1 + (regionConverted req width height).2.2.2 > (height:ℚ)
     then (height:ℚ) - (regionConverted req width height).2.1
     else (regionConverted req width height).2.2.2)

/-- manipulator.py lines 184-234, region_to_apply: ok none is the
(None,None,None,None) no-op sentinel; the square branch floors with
Python 2 integer division. -/
def region_to_apply (req : IIIFRequest) (width height : ℤ) :
    PyResult (Option (ℚ × ℚ × ℚ × ℚ)) :=
  if req.region_full = true ∨ (req.region_pct = true ∧ req.region_xywh = (0, 0, 100, 100)) then
    .ok none
  else if width ≤ 0 ∨ height ≤ 0 then .err regionNotImplementedErr
  else if req.region_square = true then
    if width ≤ height then
      .ok (some (0, ((Int.fdiv (height - width) 2 : ℤ) : ℚ), (width:ℚ), (width:ℚ)))
    else
      .ok (some (((Int.fdiv (width - height) 2 : ℤ) : ℚ), 0, (height:ℚ), (height:ℚ)))
  else if (regionClipped req width height).2.2.1 = 0 ∨ (regionClipped req width height).2.2.2 = 0 then
    .err regionZeroErr
  else if (regionClipped req width height).1 = 0 ∧ (regionClipped req width height).2.1 = 0 ∧
      (regionClipped req width height).2.2.1 = (width:ℚ) ∧
      (regionClipped req width height).2.2.2 = (height:ℚ) then
    .ok none
  else .ok (some (regionClipped req width height))

/-- manipulator.py lines 248-268: the target w,h before the final checks.
pct scales both dimensions by size_pct / 100.0; the bang form picks
frac = min(mw/width, mh/height) in float division and rounds
dimension * frac + 0.5 down with int(); the w,h / w, / ,h forms keep the
given values and derive a missing one from the aspect ratio with Python 2
integer division inside int(... + 0.5).  A form the parser never produces
(bang or comma form without the needed components) would make Python add
or divide None and raise TypeError. -/
def sizeWH (req : IIIFRequest) (width height : ℤ) : PyResult (ℤ × ℤ) :=
  match req.size_pct with
  | some pct =>
    .ok (pyInt ((width:ℚ) * pct / 100 + 1/2), pyInt ((height:ℚ) * pct / 100 + 1/2))
  | none =>
    if req.size_bang = true then
      match req.size_wh with
      | (some mw, some mh) =>
        .ok (pyInt ((width:ℚ) * min ((mw:ℚ)/(width:ℚ)) ((mh:ℚ)/(height:ℚ)) + 1/2),
             pyInt ((height:ℚ) * min ((mw:ℚ)/(width:ℚ)) ((mh:ℚ)/(height:ℚ)) + 1/2))
      | _ => .typeErr "float() argument must be a string or a number"
    else
      match req.size_wh with
      | (some w, some h) => .ok (w, h)
      | (none, some h) => .ok (pyInt ((Int.fdiv (width * h) height : ℤ) + 1/2), h)
      | (some w, none) => .ok (w, pyInt ((Int.fdiv (height * w) width : ℤ) + 1/2))
      | (none, none) => .typeErr "unsupported operand type"

/-- manipulator.py lines 236-279, size_to_apply: ok none is the
(None,None) no-op sentinel, returned for size full, size pct 100, and a
computed size equal to the current one; a computed zero dimension raises
the 400 zero-size error first. -/
def size_to_apply (req : IIIFRequest) (width height : ℤ) : PyResult (Option (ℤ × ℤ)) :=
  if req.size_full = true ∨ req.size_pct = some 100 then .ok none
  else
    match sizeWH req width height with
    | .err e => .err e
    | .typeErr s => .typeErr s
    | .ok (w, h) =>
      if w = 0 ∨ h = 0 then .err (sizeZeroErr w h)
      else if w = width ∧ h = height then .ok none
      else .ok (some (w, h))

/-- manipulator.py lines 297-308, quality_to_apply: substitute native
below API 1.1 inclusive (Python 2 string comparison) and default above,
when no quality was requested; otherwise pass the token through. -/
def quality_to_apply (api_version : String) (req : IIIFRequest) : String :=
  match req.quality with
  | none => if pyStrLe api_version "1.1" = true then "native" else "default"
  | some q => q

/-- manipulator.py lines 147-156, do_quality of the null manipulator. -/
def do_quality (api_version : String) (quality : String) : PyResult Unit :=
  if pyStrLe "2.0" api_version = true then
    if quality ≠ "default" then
      .err { code := 501, parameter := "default", zeroSize := false,
             text := "Null manipulator supports only quality=default." }
    else .ok ()
  else
    if quality ≠ "native" then
      .err { code := 501, parameter := "native", zeroSize := false,
             text := "Null manipulator supports only quality=native." }
    else .ok ()

/-- manipulator.py lines 44-63, compliance_uri: the version picks one of
three fixed patterns (or returns at once for any other version, 2.1
included), then an unset level returns, else the level number is
substituted for the trailing %d of the pattern. -/
def compliance_uri (api_version : String) (compliance_level : Option Nat) : Option String :=
  match
    (if api_version = "1.0" then
      some ("http://library.stanford.edu/iiif/image-api/compliance.html#level", "")
    else if api_version = "1.1" then
      some ("http://library.stanford.edu/iiif/image-api/1.1/compliance.html#level", "")
    else if api_version = "2.0" then
      some ("http://iiif.io/api/image/2/level", ".json")
    else none),
    compliance_level
  with
  | none, _ => none
  | some _, none => none
  | some ps, some l => some (ps.1 ++ toString l ++ ps.2)

/-- manipulator_pil.py line 48: def do_region(self) declares no parameter
besides self. -/
def pilDoRegionParams : Nat := 0

/-- manipulator_pil.py line 58: def do_size(self). -/
def pilDoSizeParams : Nat := 0

/-- manipulator_pil.py line 68: def do_rotation(self). -/
def pilDoRotationParams : Nat := 0

/-- manipulator_pil.py line 76: def do_quality(self). -/
def pilDoQualityParams : Nat := 0

/-- manipulator_pil.py line 85: def do_format(self). -/
def pilDoFormatParams : Nat := 0

/-- A Python method call: the body runs only when the number of arguments
passed matches the number of parameters the method declares; otherwise
Python raises TypeError before entering the method. -/
def callPy (declared given : Nat) (msg : String) (body : PyResult Unit) : PyResult Unit :=
  if declared = given then body else .typeErr msg

/-- The TypeError message of Python 2 for the first mismatched call. -/
def doRegionArgMismatch : String := "do_region() takes exactly 1 argument (5 given)"

/-- IIIFManipulator.derive (manipulator.py lines 105-115) run on an
IIIFManipulatorPIL instance whose do_first loaded an image of the given
width and height.  derive passes 4, 2, 2, 1 and 1 positional arguments to
do_region, do_size, do_rotation, do_quality and do_format
(manipulator.py lines 107-114); the PIL subclass declares each hook with
none, so the first hook call that is reached raises TypeError.  The hook
bodies are unreachable under these declarations and are not modelled. -/
def derivePIL (req : IIIFRequest) (width height : ℤ) : PyResult Unit :=
  match region_to_apply req width height with
  | .err e => .err e
  | .typeErr s => .typeErr s
  | .ok _ =>
    callPy pilDoRegionParams 4 doRegionArgMismatch
      (callPy pilDoSizeParams 2 "do_size() takes exactly 1 argument (3 given)"
        (callPy pilDoRotationParams 2 "do_rotation() takes exactly 1 argument (3 given)"
          (callPy pilDoQualityParams 1 "do_quality() takes exactly 1 argument (2 given)"
            (callPy pilDoFormatParams 1 "do_format() takes exactly 1 argument (2 given)"
              (.ok ())))))

/-- A region=full request (size full as well: the fields not under study
are identities). -/
def fullRegionReq : IIIFRequest := { region_full := true, size_full := true }

/-- A region=square request. -/
def squareReq : IIIFRequest := { region_square := true, size_full := true }

/-- A pixel region request x,y,w,h. -/
def pixelRegionReq (x y w h : ℚ) : IIIFRequest :=
  { region_xywh := (x, y, w, h), size_full := true }

/-- A size=!mw,mh best-fit request. -/
def bangSizeReq (mw mh : ℤ) : IIIFRequest :=
  { region_full := true, size_bang := true, size_wh := (some mw, some mh) }

/-- A size=w,h (or w, or ,h) request. -/
def exactSizeReq (w h : Option ℤ) : IIIFRequest :=
  { region_full := true, size_wh := (w, h) }

end IIIF

namespace IIIF

/-- Evaluation of the region resolver at the degenerate pixel region
0,0,0,50 of the spec on a 100 by 100 image: the 400 zero-size error. -/
theorem region_zero_pixel_eval :
    region_to_apply (pixelRegionReq 0 0 0 50) 100 100 = .err regionZeroErr := by
  norm_num [region_to_apply, regionClipped, regionConverted, pixelRegionReq]

/-- Evaluation of the size resolver at the degenerate size 0, of the spec
on a 100 by 100 image: the 400 zero-size error with computed size (0,0). -/
theorem size_zero_exact_eval :
    size_to_apply (exactSizeReq (some 0) none) 100 100 = .err (sizeZeroErr 0 0) := by
  norm_num [size_to_apply, sizeWH, exactSizeReq, pyInt]
  intro h
  exact absurd h (by simp)

/-- Rounding a value that is at most m (an integer) half up stays at most m. -/
theorem pyInt_add_half_le (a : ℚ) (m : ℤ) (ha : 0 ≤ a) (ham : a ≤ (m:ℚ)) :
    pyInt (a + 1/2) ≤ m := by
  rw [pyInt, if_pos (by linarith)]
  have hlt : ⌊a + 1/2⌋ < m + 1 := by
    rw [Int.floor_lt]
    push_cast
    linarith
  omega

/-- Rounding a non-negative integer half up returns it unchanged. -/
theorem pyInt_intCast_add_half (n : ℤ) (hn : 0 ≤ n) : pyInt ((n:ℚ) + 1/2) = n := by
  have hn' : (0:ℚ) ≤ (n:ℚ) := by exact_mod_cast hn
  rw [pyInt, if_pos (by linarith), Int.floor_int_add]
  norm_num

/-- C1 (amended): for a best-fit size request !mw,mh with mw,mh > 0 on an
image of known positive size, sizeWH computes w and h by rounding
width*frac and height*frac half up for frac = min(mw/width, mh/height);
the computed pair satisfies w <= mw and h <= mh with at least one
dimension equal to its cap, and size_to_apply returns it, except that a
zero computed dimension raises the 400 zero-size error and a pair equal
to the current size returns the no-op sentinel. -/
theorem C1_bestfit_size (width height mw mh : ℤ)
    (hw : 0 < width) (hh : 0 < height) (hmw : 0 < mw) (hmh : 0 < mh)
    (req : IIIFRequest) (hfull : req.size_full = false) (hpct : req.size_pct = none)
    (hbang : req.size_bang = true) (hwh : req.size_wh = (some mw, some mh)) :
    ∀ w h : ℤ, sizeWH req width height = .ok (w, h) →
      w ≤ mw ∧ h ≤ mh ∧ (w = mw ∨ h = mh) ∧
      size_to_apply req width height =
        (if w = 0 ∨ h = 0 then .err (sizeZeroErr w h)
         else if w = width ∧ h = height then .ok none
         else .ok (some (w, h))) := by
  have hwq : (0:ℚ) < (width:ℚ) := by exact_mod_cast hw
  have hhq : (0:ℚ) < (height:ℚ) := by exact_mod_cast hh
  have hmwq : (0:ℚ) < (mw:ℚ) := by exact_mod_cast hmw
  have hmhq : (0:ℚ) < (mh:ℚ) := by exact_mod_cast hmh
  have hWH : sizeWH req width height =
      .ok (pyInt ((width:ℚ) * min ((mw:ℚ)/(width:ℚ)) ((mh:ℚ)/(height:ℚ)) + 1/2),
           pyInt ((height:ℚ) * min ((mw:ℚ)/(width:ℚ)) ((mh:ℚ)/(height:ℚ)) + 1/2)) := by
    simp [sizeWH, hpct, hbang, hwh]
  have hbounds :
      pyInt ((width:ℚ) * min ((mw:ℚ)/(width:ℚ)) ((mh:ℚ)/(height:ℚ)) + 1/2) ≤ mw ∧
      pyInt ((height:ℚ) * min ((mw:ℚ)/(width:ℚ)) ((mh:ℚ)/(height:ℚ)) + 1/2) ≤ mh ∧
      (pyInt ((width:ℚ) * min ((mw:ℚ)/(width:ℚ)) ((mh:ℚ)/(height:ℚ)) + 1/2) = mw ∨
       pyInt ((height:ℚ) * min ((mw:ℚ)/(width:ℚ)) ((mh:ℚ)/(height:ℚ)) + 1/2) = mh) := by
    have hwmul : (width:ℚ) * ((mw:ℚ)/(width:ℚ)) = (mw:ℚ) := by field_simp
    have hhmul : (height:ℚ) * ((mh:ℚ)/(height:ℚ)) = (mh:ℚ) := by field_simp
    rcases min_cases ((mw:ℚ)/(width:ℚ)) ((mh:ℚ)/(height:ℚ)) with ⟨hmin, hle⟩ | ⟨hmin, hlt⟩
    · rw [hmin, hwmul]
      have hweq : pyInt ((mw:ℚ) + 1/2) = mw := pyInt_intCast_add_half mw hmw.le
      have hha : (0:ℚ) ≤ (height:ℚ) * ((mw:ℚ)/(width:ℚ)) :=
        mul_nonneg hhq.le (div_pos hmwq hwq).le
      have hham : (height:ℚ) * ((mw:ℚ)/(width:ℚ)) ≤ (mh:ℚ) := by
        calc (height:ℚ) * ((mw:ℚ)/(width:ℚ)) ≤ (height:ℚ) * ((mh:ℚ)/(height:ℚ)) :=
              mul_le_mul_of_nonneg_left hle hhq.le
          _ = (mh:ℚ) := hhmul
      exact ⟨le_of_eq hweq, pyInt_add_half_le _ mh hha hham, Or.inl hweq⟩
    · rw [hmin, hhmul]
      have hheq : pyInt ((mh:ℚ) + 1/2) = mh := pyInt_intCast_add_half mh hmh.le
      have hwa : (0:ℚ) ≤ (width:ℚ) * ((mh:ℚ)/(height:ℚ)) :=
        mul_nonneg hwq.le (div_pos hmhq hhq).le
      have hwam : (width:ℚ) * ((mh:ℚ)/(height:ℚ)) ≤ (mw:ℚ) := by
        calc (width:ℚ) * ((mh:ℚ)/(height:ℚ)) ≤ (width:ℚ) * ((mw:ℚ)/(width:ℚ)) :=
              mul_le_mul_of_nonneg_left hlt.le hwq.le
          _ = (mw:ℚ) := hwmul
      exact ⟨pyInt_add_half_le _ mw hwa hwam, le_of_eq hheq, Or.inr hheq⟩
  intro w h heq
  rw [hWH] at heq
  simp only [PyResult.ok.injEq, Prod.mk.injEq] at heq
  obtain ⟨hweq, hheq⟩ := heq
  subst hweq hheq
  refine ⟨hbounds.1, hbounds.2.1, hbounds.2.2, ?_⟩
  have h1 : ¬(req.size_full = true ∨ req.size_pct = some 100) := by
    rw [hfull, hpct]; simp
  rw [size_to_apply, if_neg h1, hWH]

/-- C1, counterexample to the claim as stated: the best-fit request !1,1
on a 1000 by 1 image computes (w,h) = (1,0) - the width cap is met - but
size_to_apply raises the 400 zero-size error instead of returning the
pair, so the claim does not hold without a zero-size carve-out. -/
theorem C1_counterexample :
    sizeWH (bangSizeReq 1 1) 1000 1 = .ok (1, 0) ∧
    size_to_apply (bangSizeReq 1 1) 1000 1 = .err (sizeZeroErr 1 0) := by
  constructor
  · norm_num [sizeWH, bangSizeReq, pyInt]
  · norm_num [size_to_apply, sizeWH, bangSizeReq, pyInt]
    intro hcon
    exact absurd hcon (by simp)

/-- C1, witness: the best-fit request !500,500 on a 1000 by 800 image
returns (500,400), the tight fit on the width cap. -/
theorem C1_bestfit_witness :
    size_to_apply (bangSizeReq 500 500) 1000 800 = .ok (some (500, 400)) := by
  have hk := C1_bestfit_size 1000 800 500 500 (by decide) (by decide) (by decide) (by decide)
    (bangSizeReq 500 500) rfl rfl rfl rfl 500 400
    (by norm_num [sizeWH, bangSizeReq, pyInt])
  rw [hk.2.2.2]
  norm_num

/-- C2 (amended): for a pixel region request with 0 <= x < width,
0 <= y < height and w,h > 0 on an image of known positive size, every
non-sentinel box returned by region_to_apply has strictly positive width
and height and lies within the image bounds, and when x+w overruns the
image the resolved box ends exactly at width (symmetrically for y,h);
the bounds x < width and y < height are necessary because the code never
clips x or y themselves. -/
theorem C2_pixel_region (width height x y w h : ℤ)
    (hw0 : 0 < width) (hh0 : 0 < height)
    (hx : 0 ≤ x) (hy : 0 ≤ y) (hwp : 0 < w) (hhp : 0 < h)
    (hxlt : x < width) (hylt : y < height)
    (req : IIIFRequest) (hfull : req.region_full = false) (hpct : req.region_pct = false)
    (hsq : req.region_square = false)
    (hxywh : req.region_xywh = ((x:ℚ), (y:ℚ), (w:ℚ), (h:ℚ))) :
    ∀ x' y' w' h' : ℚ,
      region_to_apply req width height = .ok (some (x', y', w', h')) →
      0 < w' ∧ 0 < h' ∧ x' + w' ≤ (width:ℚ) ∧ y' + h' ≤ (height:ℚ) ∧
      ((x:ℚ) + (w:ℚ) > (width:ℚ) → x' + w' = (width:ℚ)) ∧
      ((y:ℚ) + (h:ℚ) > (height:ℚ) → y' + h' = (height:ℚ)) := by
  have hconv : regionConverted req width height = ((x:ℚ), (y:ℚ), (w:ℚ), (h:ℚ)) := by
    rw [regionConverted, hpct]
    simp [hxywh]
  have hclip : regionClipped req width height =
      ((x:ℚ), (y:ℚ),
       if (x:ℚ) + (w:ℚ) > (width:ℚ) then (width:ℚ) - (x:ℚ) else (w:ℚ),
       if (y:ℚ) + (h:ℚ) > (height:ℚ) then (height:ℚ) - (y:ℚ) else (h:ℚ)) := by
    rw [regionClipped, hconv]
  have hwfacts : 0 < (if (x:ℚ) + (w:ℚ) > (width:ℚ) then (width:ℚ) - (x:ℚ) else (w:ℚ)) ∧
      (x:ℚ) + (if (x:ℚ) + (w:ℚ) > (width:ℚ) then (width:ℚ) - (x:ℚ) else (w:ℚ)) ≤ (width:ℚ) ∧
      ((x:ℚ) + (w:ℚ) > (width:ℚ) →
        (x:ℚ) + (if (x:ℚ) + (w:ℚ) > (width:ℚ) then (width:ℚ) - (x:ℚ) else (w:ℚ)) = (width:ℚ)) := by
    split
    · have hxq : (x:ℚ) < (width:ℚ) := by exact_mod_cast hxlt
      refine ⟨by linarith, by linarith, fun _ => by ring⟩
    · rename_i hcl
      push_neg at hcl
      have hwq : (0:ℚ) < (w:ℚ) := by exact_mod_cast hwp
      exact ⟨hwq, hcl, fun hcon => absurd hcon (not_lt.mpr hcl)⟩
  have hhfacts : 0 < (if (y:ℚ) + (h:ℚ) > (height:ℚ) then (height:ℚ) - (y:ℚ) else (h:ℚ)) ∧
      (y:ℚ) + (if (y:ℚ) + (h:ℚ) > (height:ℚ) then (height:ℚ) - (y:ℚ) else (h:ℚ)) ≤ (height:ℚ) ∧
      ((y:ℚ) + (h:ℚ) > (height:ℚ) →
        (y:ℚ) + (if (y:ℚ) + (h:ℚ) > (height:ℚ) then (height:ℚ) - (y:ℚ) else (h:ℚ)) = (height:ℚ)) := by
    split
    · have hyq : (y:ℚ) < (height:ℚ) := by exact_mod_cast hylt
      refine ⟨by linarith, by linarith, fun _ => by ring⟩
    · rename_i hcl
      push_neg at hcl
      have hhq : (0:ℚ) < (h:ℚ) := by exact_mod_cast hhp
      exact ⟨hhq, hcl, fun hcon => absurd hcon (not_lt.mpr hcl)⟩
  intro x' y' w' h' heq
  have h1 : ¬(req.region_full = true ∨
      (req.region_pct = true ∧ req.region_xywh = (0, 0, 100, 100))) := by
    rw [hfull, hpct]; simp
  have h2 : ¬(width ≤ 0 ∨ height ≤ 0) := by push_neg; exact ⟨hw0, hh0⟩
  have h3 : ¬(req.region_square = true) := by rw [hsq]; simp
  rw [region_to_apply, if_neg h1, if_neg h2, if_neg h3] at heq
  simp only [hclip] at heq
  have hwz : ¬((if (x:ℚ) + (w:ℚ) > (width:ℚ) then (width:ℚ) - (x:ℚ) else (w:ℚ)) = 0 ∨
      (if (y:ℚ) + (h:ℚ) > (height:ℚ) then (height:ℚ) - (y:ℚ) else (h:ℚ)) = 0) := by
    push_neg
    exact ⟨ne_of_gt hwfacts.1, ne_of_gt hhfacts.1⟩
  rw [if_neg hwz] at heq
  by_cases hfim : (x:ℚ) = 0 ∧ (y:ℚ) = 0 ∧
      (if (x:ℚ) + (w:ℚ) > (width:ℚ) then (width:ℚ) - (x:ℚ) else (w:ℚ)) = (width:ℚ) ∧
      (if (y:ℚ) + (h:ℚ) > (height:ℚ) then (height:ℚ) - (y:ℚ) else (h:ℚ)) = (height:ℚ)
  · rw [if_pos hfim] at heq
    exact absurd heq (by simp)
  · rw [if_neg hfim] at heq
    simp only [PyResult.ok.injEq, Option.some.injEq, Prod.mk.injEq] at heq
    obtain ⟨hx', hy', hw', hh'⟩ := heq
    subst hx' hy' hw' hh'
    exact ⟨hwfacts.1, hhfacts.1, hwfacts.2.1, hhfacts.2.1, hwfacts.2.2, hhfacts.2.2⟩

/-- C2, counterexample to the claim as stated: the pixel region 150,0,10,10
on a 100 by 100 image is returned as the box (150,0,-50,10), whose width
is negative, not strictly positive: x is larger than the image width and
is never clipped. -/
theorem C2_counterexample :
    region_to_apply (pixelRegionReq 150 0 10 10) 100 100 = .ok (some (150, 0, -50, 10)) ∧
    ¬(0 < (-50:ℚ)) := by
  constructor
  · norm_num [region_to_apply, regionClipped, regionConverted, pixelRegionReq, regionZeroErr]
  · norm_num

/-- C2, witness: the pixel region 50,0,100,10 on a 100 by 100 image is
clipped to the box (50,0,50,10), which ends exactly at the image width. -/
theorem C2_witness :
    region_to_apply (pixelRegionReq 50 0 100 10) 100 100 = .ok (some ((50:ℚ), 0, 50, 10)) ∧
    (0 < (50:ℚ) ∧ 0 < (10:ℚ) ∧ (50:ℚ) + 50 ≤ 100 ∧ (0:ℚ) + 10 ≤ 100 ∧
     ((50:ℚ) + 100 > 100 → (50:ℚ) + 50 = 100) ∧ ((0:ℚ) + 10 > 100 → (0:ℚ) + 10 = 100)) := by
  have hr : region_to_apply (pixelRegionReq 50 0 100 10) 100 100 =
      .ok (some ((50:ℚ), 0, 50, 10)) := by
    norm_num [region_to_apply, regionClipped, regionConverted, pixelRegionReq, regionZeroErr]
  have key := C2_pixel_region 100 100 50 0 100 10 (by decide) (by decide) (by decide)
    (by decide) (by decide) (by decide) (by decide) (by decide)
    (pixelRegionReq 50 0 100 10) rfl rfl rfl (by norm_num [pixelRegionReq])
    50 0 50 10 hr
  push_cast at key
  exact ⟨hr, key⟩

/-- C3: for a square region request on an image of known positive size,
region_to_apply crops the larger dimension symmetrically to the smaller
with a floor-divided offset: (0, (height-width)/2, width, width) when
width <= height and ((width-height)/2, 0, height, height) otherwise; on
a 1000 by 800 image the box is (100,0,800,800). -/
theorem C3_square_region (width height : ℤ) (hw : 0 < width) (hh : 0 < height)
    (req : IIIFRequest) (hfull : req.region_full = false) (hpct : req.region_pct = false)
    (hsq : req.region_square = true) :
    region_to_apply req width height =
      (if width ≤ height then
        .ok (some ((0:ℚ), ((Int.fdiv (height - width) 2 : ℤ) : ℚ), (width:ℚ), (width:ℚ)))
      else
        .ok (some (((Int.fdiv (width - height) 2 : ℤ) : ℚ), (0:ℚ), (height:ℚ), (height:ℚ)))) ∧
    region_to_apply squareReq 1000 800 = .ok (some ((100:ℚ), 0, 800, 800)) := by
  constructor
  · have h1 : ¬(req.region_full = true ∨
        (req.region_pct = true ∧ req.region_xywh = (0, 0, 100, 100))) := by
      rw [hfull, hpct]; simp
    have h2 : ¬(width ≤ 0 ∨ height ≤ 0) := by push_neg; exact ⟨hw, hh⟩
    rw [region_to_apply, if_neg h1, if_neg h2, if_pos hsq]
  · decide

/-- C3, witness: a square region on an 800 by 1000 image crops the height
to (0,100,800,800). -/
theorem C3_square_witness :
    region_to_apply squareReq 800 1000 = .ok (some ((0:ℚ), 100, 800, 800)) := by
  have h := C3_square_region 800 1000 (by decide) (by decide) squareReq rfl rfl rfl
  rw [h.1]
  decide

/-- C4 (amended): no request is ever fulfilled by derive on the PIL
manipulator: whenever region resolution succeeds, the call
do_region(x,y,w,h) of the base pipeline raises TypeError because the PIL
hook declares no parameters, and when the region resolver raises first,
that IIIFError surfaces instead; in particular derive never returns ok. -/
theorem C4_pil_derive :
    (∀ (req : IIIFRequest) (width height : ℤ), derivePIL req width height ≠ .ok ()) ∧
    (∀ (req : IIIFRequest) (width height : ℤ) (r : Option (ℚ × ℚ × ℚ × ℚ)),
      region_to_apply req width height = .ok r →
      derivePIL req width height = .typeErr doRegionArgMismatch) ∧
    derivePIL fullRegionReq 100 100 = .typeErr doRegionArgMismatch := by
  have key : ∀ (req : IIIFRequest) (width height : ℤ) (r : Option (ℚ × ℚ × ℚ × ℚ)),
      region_to_apply req width height = .ok r →
      derivePIL req width height = .typeErr doRegionArgMismatch := by
    intro req width height r hr
    rw [derivePIL, hr]
    rfl
  refine ⟨?_, key, key fullRegionReq 100 100 none (by decide)⟩
  intro req width height
  rw [derivePIL]
  rcases region_to_apply req width height with r | e | s
  · simp [callPy, pilDoRegionParams]
  · simp
  · simp

/-- C4, counterexample to the claim as stated: the request with pixel
region 0,0,0,50 on a 100 by 100 image makes derive raise the 400
zero-size IIIFError from region_to_apply, not a TypeError, so not every
request reaches the mismatched do_region call. -/
theorem C4_counterexample :
    derivePIL (pixelRegionReq 0 0 0 50) 100 100 = .err regionZeroErr := by
  rw [derivePIL, region_zero_pixel_eval]

/-- C5 (amended): with unknown dimensions (width <= 0 or height <= 0)
every non-trivial region request raises the 501 NotImplemented error from
region_to_apply; size_to_apply has no such guard: an exact w,h size
request returns (w,h) unchanged whatever the stored dimensions are. -/
theorem C5_unknown_dims (req : IIIFRequest) (width height : ℤ)
    (hdim : width ≤ 0 ∨ height ≤ 0)
    (hfull : req.region_full = false)
    (hpct : ¬(req.region_pct = true ∧ req.region_xywh = (0, 0, 100, 100))) :
    region_to_apply req width height = .err regionNotImplementedErr ∧
    (∀ (r : IIIFRequest) (w h : ℤ),
      r.size_full = false → r.size_pct = none → r.size_bang = false →
      r.size_wh = (some w, some h) → w ≠ 0 → h ≠ 0 → ¬(w = width ∧ h = height) →
      size_to_apply r width height = .ok (some (w, h))) := by
  constructor
  · have h1 : ¬(req.region_full = true ∨
        (req.region_pct = true ∧ req.region_xywh = (0, 0, 100, 100))) := by
      rw [hfull]; simpa using hpct
    rw [region_to_apply, if_neg h1, if_pos hdim]
  · intro r w h hsf hsp hsb hswh hw hh hne
    have h1 : ¬(r.size_full = true ∨ r.size_pct = some 100) := by
      rw [hsf, hsp]; simp
    have h2 : sizeWH r width height = .ok (w, h) := by
      simp [sizeWH, hsp, hsb, hswh]
    rw [size_to_apply, if_neg h1, h2]
    simp [hw, hh, hne]

/-- C5, counterexample to the claim as stated: with both dimensions
unknown (-1), the exact size request 100,50 is returned unchanged by
size_to_apply; no 501 NotImplemented error is raised for sizes. -/
theorem C5_counterexample :
    size_to_apply (exactSizeReq (some 100) (some 50)) (-1) (-1) = .ok (some (100, 50)) := by
  norm_num [size_to_apply, sizeWH, exactSizeReq]
  intro h
  exact absurd h (by simp)

/-- C5, witness: a square region request with unknown dimensions raises
the 501 NotImplemented error. -/
theorem C5_witness :
    region_to_apply squareReq (-1) (-1) = .err regionNotImplementedErr :=
  (C5_unknown_dims squareReq (-1) (-1) (Or.inl (by decide)) rfl (by decide)).1

/-- C6: quality_to_apply passes a requested quality token through
unchanged; with no token it returns native for API versions 1.0 and 1.1
and default for 2.0 and 2.1. -/
theorem C6_quality_to_apply :
    (∀ (v : String) (req : IIIFRequest) (q : String),
      req.quality = some q → quality_to_apply v req = q) ∧
    (∀ req : IIIFRequest, req.quality = none →
      quality_to_apply "1.0" req = "native" ∧ quality_to_apply "1.1" req = "native" ∧
      quality_to_apply "2.0" req = "default" ∧ quality_to_apply "2.1" req = "default") := by
  constructor
  · intro v req q hq
    simp [quality_to_apply, hq]
  · intro req hq
    refine ⟨?_, ?_, ?_, ?_⟩ <;> simp [quality_to_apply, hq] <;> decide

/-- C7: region_to_apply returns the no-op sentinel for region full and
for region pct 0,0,100,100 on any dimensions, known or not; size_to_apply
returns the no-op sentinel for size full, for size pct 100, and whenever
the computed target size equals the current nonzero dimensions. -/
theorem C7_noop_sentinels :
    (∀ (req : IIIFRequest) (width height : ℤ), req.region_full = true →
      region_to_apply req width height = .ok none) ∧
    (∀ (req : IIIFRequest) (width height : ℤ), req.region_pct = true →
      req.region_xywh = (0, 0, 100, 100) →
      region_to_apply req width height = .ok none) ∧
    (∀ (req : IIIFRequest) (width height : ℤ), req.size_full = true →
      size_to_apply req width height = .ok none) ∧
    (∀ (req : IIIFRequest) (width height : ℤ), req.size_pct = some 100 →
      size_to_apply req width height = .ok none) ∧
    (∀ (req : IIIFRequest) (width height : ℤ), width ≠ 0 → height ≠ 0 →
      sizeWH req width height = .ok (width, height) →
      size_to_apply req width height = .ok none) := by
  refine ⟨?_, ?_, ?_, ?_, ?_⟩
  · intro req width height hfull
    rw [region_to_apply, if_pos (Or.inl hfull)]
  · intro req width height hpct hxywh
    rw [region_to_apply, if_pos (Or.inr ⟨hpct, hxywh⟩)]
  · intro req width height hfull
    rw [size_to_apply, if_pos (Or.inl hfull)]
  · intro req width height hpct
    rw [size_to_apply, if_pos (Or.inr hpct)]
  · intro req width height hw hh hsz
    by_cases hg : req.size_full = true ∨ req.size_pct = some 100
    · rw [size_to_apply, if_pos hg]
    · rw [size_to_apply, if_neg hg, hsz]
      simp [hw, hh]

/-- C8: a clipped region width or height of zero raises the zero-size
error with HTTP code 400 and parameter region (as region 0,0,0,50 does on
a 100 by 100 image), and a computed target size with a zero dimension
raises the zero-size error with HTTP code 400 and parameter size (as
size 0, does). -/
theorem C8_zero_size_errors :
    (∀ (req : IIIFRequest) (width height : ℤ), 0 < width → 0 < height →
      req.region_full = false → req.region_square = false →
      ¬(req.region_pct = true ∧ req.region_xywh = (0, 0, 100, 100)) →
      ((regionClipped req width height).2.2.1 = 0 ∨ (regionClipped req width height).2.2.2 = 0) →
      region_to_apply req width height = .err regionZeroErr) ∧
    (∀ (req : IIIFRequest) (width height w h : ℤ),
      req.size_full = false → req.size_pct ≠ some 100 →
      sizeWH req width height = .ok (w, h) → (w = 0 ∨ h = 0) →
      size_to_apply req width height = .err (sizeZeroErr w h)) ∧
    region_to_apply (pixelRegionReq 0 0 0 50) 100 100 = .err regionZeroErr ∧
    regionZeroErr.code = 400 ∧ regionZeroErr.parameter = "region" ∧
    regionZeroErr.zeroSize = true ∧
    size_to_apply (exactSizeReq (some 0) none) 100 100 = .err (sizeZeroErr 0 0) ∧
    (sizeZeroErr 0 0).code = 400 ∧ (sizeZeroErr 0 0).parameter = "size" ∧
    (sizeZeroErr 0 0).zeroSize = true := by
  refine ⟨?_, ?_, region_zero_pixel_eval, rfl, rfl, rfl, size_zero_exact_eval, rfl, rfl, rfl⟩
  · intro req width height hw hh hfull hsq hpct hzero
    have h1 : ¬(req.region_full = true ∨
        (req.region_pct = true ∧ req.region_xywh = (0, 0, 100, 100))) := by
      rw [hfull]; simpa using hpct
    have h2 : ¬(width ≤ 0 ∨ height ≤ 0) := by push_neg; exact ⟨hw, hh⟩
    have h3 : ¬(req.region_square = true) := by rw [hsq]; simp
    rw [region_to_apply, if_neg h1, if_neg h2, if_neg h3, if_pos hzero]
  · intro req width height w h hsf hsp hswh hzero
    have h1 : ¬(req.size_full = true ∨ req.size_pct = some 100) := by
      rw [hsf]; simpa using hsp
    rw [size_to_apply, if_neg h1, hswh]
    exact if_pos hzero

/-- C9: the claim is right and the code wrong: do_quality raises its 501
errors with parameter set to the quality token names default and native
rather than the offending request parameter quality used by every other
stage. -/
theorem C9_do_quality_parameter :
    do_quality "2.0" "native" =
      .err { code := 501, parameter := "default", zeroSize := false,
             text := "Null manipulator supports only quality=default." } ∧
    do_quality "1.0" "default" =
      .err { code := 501, parameter := "native", zeroSize := false,
             text := "Null manipulator supports only quality=native." } ∧
    "default" ≠ "quality" ∧ "native" ≠ "quality" := by decide

/-- C10 (amended): compliance_uri substitutes the level into the fixed
pattern of versions 1.0, 1.1 and 2.0 and returns nothing for an unset
level or for any other version; version 2.1, though part of the
enumeration the claim lists, has no pattern and always yields nothing. -/
theorem C10_compliance_uri :
    (∀ l : Nat,
      compliance_uri "1.0" (some l) =
        some ("http://library.stanford.edu/iiif/image-api/compliance.html#level" ++ toString l) ∧
      compliance_uri "1.1" (some l) =
        some ("http://library.stanford.edu/iiif/image-api/1.1/compliance.html#level" ++ toString l) ∧
      compliance_uri "2.0" (some l) =
        some ("http://iiif.io/api/image/2/level" ++ toString l ++ ".json") ∧
      compliance_uri "2.1" (some l) = none) ∧
    (∀ v : String, compliance_uri v none = none) := by
  constructor
  · intro l
    refine ⟨?_, ?_, ?_, ?_⟩ <;> simp [compliance_uri]
  · intro v
    by_cases h0 : v = "1.0" <;> by_cases h1 : v = "1.1" <;> by_cases h2 : v = "2.0" <;>
      simp [compliance_uri, h0, h1, h2]

/-- C10, counterexample to the claim as stated: API version 2.1 with
compliance level 0 set returns nothing, not a URI of the 2.x family. -/
theorem C10_counterexample : compliance_uri "2.1" (some 0) = none := by decide

end IIIF
